import Mathlib

/-!
Shallow embedding of `src/main.py` (a tkinter logging demo) and proofs of
the specification claims about it.

The GUI-toolkit widgets are modelled by their observable state:
- the `ScrolledText` console widget is a list of inserted segments
  (text together with the tag passed to `insert`), an editable/disabled
  state flag, and the tag styles set by `tag_config`;
- the log queue is a FIFO list of records;
- `frame.after` scheduling is counted by a pending-callback counter;
- the system clipboard is a string.

Pure display-only toolkit calls (`grid`, `yview`, `showinfo`, fonts) have
no observable state in this model and are noted in comments where the
source performs them.
-/

/- ## Logging levels (the `logging` module constants) -/

def logging.DEBUG : Nat := 10

def logging.INFO : Nat := 20

def logging.WARNING : Nat := 30

def logging.ERROR : Nat := 40

def logging.CRITICAL : Nat := 50

/-- Embedding of `logging.getLevelName` restricted to the built-in levels;
records made by `Logger.log` carry `levelname = getLevelName(levelno)`. -/
def levelName (n : Nat) : String :=
  if n = 10 then "DEBUG"
  else if n = 20 then "INFO"
  else if n = 30 then "WARNING"
  else if n = 40 then "ERROR"
  else if n = 50 then "CRITICAL"
  else "Level " ++ toString n

/-- A `logging.LogRecord` as used by `ConsoleUi.display`: its level number,
its already-interpolated message, and the timestamp string the formatter
renders for `%(asctime)s`. -/
structure LogRecord where
  levelno : Nat
  msg : String
  asctime : String
deriving DecidableEq, Repr

def LogRecord.levelname (r : LogRecord) : String := levelName r.levelno

/-- Embedding of `logging.Formatter('%(asctime)s: %(message)s').format`
(source line 42): the record rendered through that format string. -/
def formatRecord (r : LogRecord) : String := r.asctime ++ ": " ++ r.msg

/- ## The ScrolledText console widget -/

inductive WidgetState where
  | normal
  | disabled
deriving DecidableEq, Repr

/-- A style set by `tag_config`: foreground colour and underline flag. -/
structure TagStyle where
  foreground : String
  underline : Bool
deriving DecidableEq, Repr

/-- Observable state of the `ScrolledText` widget: the editable/disabled
state, the inserted segments in order (each with the tag passed as the
third argument of `insert`), and the tag styles from `tag_config`. -/
structure ScrolledText where
  state : WidgetState
  segments : List (String × String)
  tagConfigs : List (String × TagStyle)
deriving DecidableEq, Repr

/-- The configured style of a tag, if any (`tag_config` lookup). -/
def tagStyleOf (w : ScrolledText) (tag : String) : Option TagStyle :=
  (w.tagConfigs.find? (fun p => p.1 = tag)).map Prod.snd

/-- Embedding of Tk `text.get("1.0", END)`: all inserted text, followed by
the automatic trailing newline the text widget always holds after the
final character. -/
def textGetAll (w : ScrolledText) : String :=
  String.join (w.segments.map Prod.fst) ++ "\n"

/- ## ConsoleUi state and operations -/

/-- Observable state owned by `ConsoleUi`: the text widget, the record
queue drained by the poll, the number of pending `frame.after` callbacks
scheduled for `poll_log_queue`, and the system clipboard. -/
structure ConsoleState where
  scrolled_text : ScrolledText
  log_queue : List LogRecord
  pending_after : Nat
  clipboard : String
deriving DecidableEq, Repr

/-- The five `tag_config` calls of `ConsoleUi.__init__` (lines 31-35), in
source order. -/
def initTagConfigs : List (String × TagStyle) :=
  [("INFO", ⟨"black", false⟩),
   ("DEBUG", ⟨"gray", false⟩),
   ("WARNING", ⟨"orange", false⟩),
   ("ERROR", ⟨"red", false⟩),
   ("CRITICAL", ⟨"red", true⟩)]

/-- `ConsoleUi.__init__` with an initial clipboard content: the widget is
created with `state="disabled"` and empty, the five level tags are
configured, the queue starts empty, and one `after(100, poll_log_queue)`
callback is scheduled (line 49). -/
def consoleInit (clipboard0 : String) : ConsoleState :=
  { scrolled_text := { state := .disabled, segments := [], tagConfigs := initTagConfigs },
    log_queue := [],
    pending_after := 1,
    clipboard := clipboard0 }

/-- `QueueHandler.emit` (lines 19-20): put the record at the back of the
queue. -/
def emit (st : ConsoleState) (record : LogRecord) : ConsoleState :=
  { st with log_queue := st.log_queue ++ [record] }

/-- `ConsoleUi.display` (lines 51-64): set the widget `state="normal"`,
format the record with the handler's formatter, insert
`record.levelname + ":" + msg + "\n"` at END with tag `record.levelname`,
set the widget back to `state="disabled"`, then auto-scroll (`yview`,
no modelled state). -/
def display (st : ConsoleState) (record : LogRecord) : ConsoleState :=
  let w1 := { st.scrolled_text with state := WidgetState.normal }
  let msg := formatRecord record
  let w2 := { w1 with
    segments := w1.segments ++ [(record.levelname ++ ":" ++ msg ++ "\n", record.levelname)] }
  let w3 := { w2 with state := WidgetState.disabled }
  { st with scrolled_text := w3 }

/-- The `while True: get(block=False) / except Empty: break / else: display`
loop of `poll_log_queue` (lines 68-74), with the not-yet-consumed part of
the queue made explicit. -/
def drainLoop : ConsoleState → List LogRecord → ConsoleState
  | st, [] => st
  | st, r :: rest => drainLoop (display st r) rest

/-- `ConsoleUi.poll_log_queue` (lines 66-75): the fired `after` callback is
consumed, every record currently in the queue is displayed in FIFO order,
and one new `after(100, poll_log_queue)` callback is scheduled (line 75). -/
def poll_log_queue (st : ConsoleState) : ConsoleState :=
  let st1 := drainLoop { st with log_queue := [], pending_after := st.pending_after - 1 }
    st.log_queue
  { st1 with pending_after := st1.pending_after + 1 }

/-- `ConsoleUi.copy_clipboard` (lines 77-79): append `get("1.0", END)` to
the clipboard; the `showinfo` dialog has no modelled state. -/
def copy_clipboard (st : ConsoleState) : ConsoleState :=
  { st with clipboard := st.clipboard ++ textGetAll st.scrolled_text }

/-- `ConsoleUi.clear_log` (lines 81-85), with the `askyesno` answer as a
parameter: on confirmation set the widget editable, `delete("1.0", END)`,
and set it back to disabled; otherwise do nothing. -/
def clear_log (confirm : Bool) (st : ConsoleState) : ConsoleState :=
  if confirm = true then
    let w1 := { st.scrolled_text with state := WidgetState.normal }
    let w2 := { w1 with segments := [] }
    { st with scrolled_text := { w2 with state := WidgetState.disabled } }
  else st

/- ## InputLogUi -/

/-- One `logger.log(level, msg)` request as issued by `InputLogUi.log`. -/
structure LogCall where
  level : Nat
  msg : String
deriving DecidableEq, Repr

/-- `InputLogUi.log` (lines 102-103): a single `logger.log(level, log_msg)`
call. -/
def InputLogUi.log (level : Nat) (log_msg : String) : List LogCall :=
  [⟨level, log_msg⟩]

/-- `InputLogUi.all_log` (lines 105-111): one `log` call per level of
`log_levels`, in list order; the `sleep(1)` between calls has no modelled
state. -/
def InputLogUi.all_log (log_msg : String) : List LogCall :=
  let log_levels :=
    [logging.DEBUG, logging.INFO, logging.WARNING, logging.ERROR, logging.CRITICAL]
  log_levels.foldl (fun acc level => acc ++ InputLogUi.log level log_msg) []

/-- The command bound to an `InputLogUi` button: each lambda of lines
95-100 reads the entry field at press time and calls `log` or `all_log`. -/
inductive InputCommand where
  | logAt (level : Nat)
  | allLog
deriving DecidableEq, Repr

/-- Run a button command on the entry field's current text. -/
def runInputCommand : InputCommand → String → List LogCall
  | .logAt level, t => InputLogUi.log level t
  | .allLog, t => InputLogUi.all_log t

/-- The buttons created by `InputLogUi.__init__` (lines 95-100): label and
bound command, in creation order. -/
def inputLogButtons : List (String × InputCommand) :=
  [("DEBUG", .logAt logging.DEBUG),
   ("INFO", .logAt logging.INFO),
   ("WARN", .logAt logging.WARNING),
   ("ERROR", .logAt logging.ERROR),
   ("CRITICAL", .logAt logging.CRITICAL),
   ("ALL", .allLog)]

/-- The root logger's effective level after `logging.basicConfig(level=
logging.DEBUG)` in `main` (line 163). -/
def rootEffectiveLevel : Nat := logging.DEBUG

/-- `Logger.isEnabledFor`: a `logger.log(level, ...)` call creates and
dispatches a record only when the effective level allows it. -/
def isEnabledFor (level : Nat) : Bool := rootEffectiveLevel ≤ level

/-- Records a `logger.log` call hands to `QueueHandler.emit`: one record
when the level is enabled, none otherwise. -/
def logCallRecords (c : LogCall) (asctime : String) : List LogRecord :=
  if isEnabledFor c.level then [⟨c.level, c.msg, asctime⟩] else []

/- ## LogUtilsUi and App wiring -/

/-- A `ConsoleUi` bound method passed to `LogUtilsUi` as a button command. -/
inductive ConsoleOp where
  | copy_clipboard
  | clear_log
deriving DecidableEq, Repr

/-- The buttons created by `LogUtilsUi.__init__` (lines 116-119): the
"Clipboard Copy" button bound to its first callback argument and the
"Clear log" button bound to its second. -/
def LogUtilsUi.buttons (copyCb clearCb : ConsoleOp) : List (String × ConsoleOp) :=
  [("Clipboard Copy", copyCb), ("Clear log", clearCb)]

/-- All Log Utils buttons created by `App.__init__` (lines 149-150):
`LogUtilsUi` is constructed twice into the same frame, first with
`(copy_clipboard, copy_clipboard)` and then with
`(copy_clipboard, clear_log)`; both sets of buttons exist in the frame. -/
def appLogUtilsButtons : List (String × ConsoleOp) :=
  LogUtilsUi.buttons ConsoleOp.copy_clipboard ConsoleOp.copy_clipboard ++
  LogUtilsUi.buttons ConsoleOp.copy_clipboard ConsoleOp.clear_log

/- ## Helper lemmas -/

/-- The segment `display` inserts for a record: the rendered line text and
its tag. -/
def renderSegment (r : LogRecord) : String × String :=
  (r.levelname ++ ":" ++ formatRecord r ++ "\n", r.levelname)

theorem display_segments (st : ConsoleState) (r : LogRecord) :
    (display st r).scrolled_text.segments
      = st.scrolled_text.segments ++ [renderSegment r] := rfl

theorem drainLoop_spec (q : List LogRecord) : ∀ st : ConsoleState,
    (drainLoop st q).scrolled_text.segments
        = st.scrolled_text.segments ++ q.map renderSegment
    ∧ (drainLoop st q).log_queue = st.log_queue
    ∧ (drainLoop st q).pending_after = st.pending_after
    ∧ (drainLoop st q).clipboard = st.clipboard := by
  induction q with
  | nil => intro st; exact ⟨by simp [drainLoop], rfl, rfl, rfl⟩
  | cons r rest ih =>
      intro st
      obtain ⟨h1, h2, h3, h4⟩ := ih (display st r)
      refine ⟨?_, h2, h3, h4⟩
      have h : (drainLoop st (r :: rest)).scrolled_text.segments
          = (st.scrolled_text.segments ++ [renderSegment r]) ++ rest.map renderSegment := h1
      simpa [List.append_assoc] using h

/- ## Claim theorems -/

/-- C1 (code evaluation at the failing wiring): `App.__init__` constructs
`LogUtilsUi` twice into the Log Utils frame (lines 149-150), so the frame
holds two "Clipboard Copy" buttons and two "Clear log" buttons, and the
first "Clear log" button is wired to `copy_clipboard`, not to `clear_log`;
the claim's "exactly one button for each utility, Clear log wired to the
clear operation" fails on this wiring. -/
theorem app_log_utils_wiring :
    appLogUtilsButtons
      = [("Clipboard Copy", ConsoleOp.copy_clipboard),
         ("Clear log", ConsoleOp.copy_clipboard),
         ("Clipboard Copy", ConsoleOp.copy_clipboard),
         ("Clear log", ConsoleOp.clear_log)]
    ∧ (appLogUtilsButtons.filter (fun b => b.1 = "Clear log")).length = 2
    ∧ (appLogUtilsButtons.filter (fun b => b.1 = "Clear log")).map Prod.snd
        = [ConsoleOp.copy_clipboard, ConsoleOp.clear_log] := by
  refine ⟨rfl, by decide, by decide⟩

/-- C2: every displayed record is inserted with a tag equal to the
record's level name, and the five level tags are configured at
construction with their own styles: DEBUG gray, INFO black, WARNING
orange, ERROR red, CRITICAL red underlined. -/
theorem severity_color_coding :
    (∀ st r, (display st r).scrolled_text.segments
        = st.scrolled_text.segments
          ++ [(r.levelname ++ ":" ++ formatRecord r ++ "\n", r.levelname)])
    ∧ (∀ c0, tagStyleOf (consoleInit c0).scrolled_text "DEBUG" = some ⟨"gray", false⟩
        ∧ tagStyleOf (consoleInit c0).scrolled_text "INFO" = some ⟨"black", false⟩
        ∧ tagStyleOf (consoleInit c0).scrolled_text "WARNING" = some ⟨"orange", false⟩
        ∧ tagStyleOf (consoleInit c0).scrolled_text "ERROR" = some ⟨"red", false⟩
        ∧ tagStyleOf (consoleInit c0).scrolled_text "CRITICAL" = some ⟨"red", true⟩) := by
  exact ⟨fun st r => rfl, fun c0 => ⟨rfl, rfl, rfl, rfl, rfl⟩⟩

/-- C3: one polling step consumes every record currently in the queue,
renders each in FIFO order at the end of the console, and leaves the
queue empty. -/
theorem poll_log_queue_drains :
    ∀ st : ConsoleState,
      (poll_log_queue st).log_queue = []
      ∧ (poll_log_queue st).scrolled_text.segments
          = st.scrolled_text.segments ++ st.log_queue.map renderSegment := by
  intro st
  obtain ⟨h1, h2, h3, h4⟩ := drainLoop_spec st.log_queue
    { st with log_queue := [], pending_after := st.pending_after - 1 }
  constructor
  · simpa [poll_log_queue] using h2
  · simpa [poll_log_queue] using h1

/-- C4: the Log Input Form has exactly one button wired to log at each of
the five severity levels, pressing such a button issues exactly one
`logger.log` call carrying the entry field's current text at that level,
and every one of the five levels is enabled under the root configuration. -/
theorem severity_buttons :
    ((inputLogButtons.filter
        (fun b => b.2 = InputCommand.logAt logging.DEBUG)).length = 1
      ∧ (inputLogButtons.filter
        (fun b => b.2 = InputCommand.logAt logging.INFO)).length = 1
      ∧ (inputLogButtons.filter
        (fun b => b.2 = InputCommand.logAt logging.WARNING)).length = 1
      ∧ (inputLogButtons.filter
        (fun b => b.2 = InputCommand.logAt logging.ERROR)).length = 1
      ∧ (inputLogButtons.filter
        (fun b => b.2 = InputCommand.logAt logging.CRITICAL)).length = 1)
    ∧ (∀ t level, runInputCommand (InputCommand.logAt level) t = [⟨level, t⟩])
    ∧ (isEnabledFor logging.DEBUG = true
      ∧ isEnabledFor logging.INFO = true
      ∧ isEnabledFor logging.WARNING = true
      ∧ isEnabledFor logging.ERROR = true
      ∧ isEnabledFor logging.CRITICAL = true) := by
  exact ⟨by decide, fun t level => rfl, by decide⟩

/-- C5: the clear-log operation empties the console exactly when the
dialog is confirmed: on confirmation all inserted text is deleted (queue
and clipboard untouched), and on refusal the whole state is unchanged. -/
theorem clear_log_confirm :
    ∀ st : ConsoleState,
      (clear_log true st).scrolled_text.segments = []
      ∧ (clear_log true st).log_queue = st.log_queue
      ∧ (clear_log true st).clipboard = st.clipboard
      ∧ clear_log false st = st := by
  exact fun st => ⟨rfl, rfl, rfl, rfl⟩

/-- C6: the clipboard-copy operation appends the console's whole text
(as returned by `get("1.0", END)`) to the clipboard and changes neither
the console widget nor the queue. -/
theorem copy_clipboard_frame :
    ∀ st : ConsoleState,
      (copy_clipboard st).clipboard = st.clipboard ++ textGetAll st.scrolled_text
      ∧ (copy_clipboard st).scrolled_text = st.scrolled_text
      ∧ (copy_clipboard st).log_queue = st.log_queue := by
  exact fun st => ⟨rfl, rfl, rfl⟩

/-- C7: construction schedules exactly one poll callback, and a polling
step fired from the single pending callback leaves exactly one pending
callback, so a single polling timer is pending at all times. -/
theorem single_poll_timer :
    (∀ c0, (consoleInit c0).pending_after = 1)
    ∧ (∀ st : ConsoleState, st.pending_after = 1 →
        (poll_log_queue st).pending_after = 1) := by
  constructor
  · intro c0; rfl
  · intro st h
    obtain ⟨h1, h2, h3, h4⟩ := drainLoop_spec st.log_queue
      { st with log_queue := [], pending_after := st.pending_after - 1 }
    have hp : (poll_log_queue st).pending_after = st.pending_after - 1 + 1 := by
      simp [poll_log_queue, h3]
    rw [hp, h]

/-- Witness for C7 at the freshly constructed console. -/
theorem single_poll_timer_witness :
    (consoleInit "").pending_after = 1
    ∧ (poll_log_queue (consoleInit "")).pending_after = 1 :=
  ⟨single_poll_timer.1 "",
   single_poll_timer.2 (consoleInit "") (single_poll_timer.1 "")⟩

/-- C8: the console widget is disabled at construction and after every
public operation: `display` always leaves it disabled, `clear_log`
preserves disabledness for either dialog answer, and `copy_clipboard`
never touches the widget state. -/
theorem console_disabled_invariant :
    (∀ c0, (consoleInit c0).scrolled_text.state = WidgetState.disabled)
    ∧ (∀ st r, (display st r).scrolled_text.state = WidgetState.disabled)
    ∧ (∀ st c, st.scrolled_text.state = WidgetState.disabled →
        (clear_log c st).scrolled_text.state = WidgetState.disabled)
    ∧ (∀ st : ConsoleState,
        (copy_clipboard st).scrolled_text.state = st.scrolled_text.state) := by
  refine ⟨fun c0 => rfl, fun st r => rfl, ?_, fun st => rfl⟩
  intro st c h
  cases c with
  | false => simpa [clear_log] using h
  | true => rfl

/-- Witness for C8: the fresh console is disabled and stays disabled
through a declined clear. -/
theorem console_disabled_invariant_witness :
    (consoleInit "").scrolled_text.state = WidgetState.disabled
    ∧ (clear_log false (consoleInit "")).scrolled_text.state
        = WidgetState.disabled :=
  ⟨console_disabled_invariant.1 "",
   console_disabled_invariant.2.2.1 (consoleInit "") false
     (console_disabled_invariant.1 "")⟩

/-- C9: every rendered console line is exactly
levelname ++ ":" ++ formatted message ++ newline, where the formatted
message comes from the formatter with format string
'%(asctime)s: %(message)s'. -/
theorem rendered_line_form :
    ∀ st r,
      (display st r).scrolled_text.segments
        = st.scrolled_text.segments
          ++ [(r.levelname ++ ":" ++ (r.asctime ++ ": " ++ r.msg) ++ "\n",
               r.levelname)]
      ∧ formatRecord r = r.asctime ++ ": " ++ r.msg := by
  exact fun st r => ⟨rfl, rfl⟩

/-- C10: for every message, the ALL button issues exactly one log call per
severity level, with the same message, in strictly ascending severity
order DEBUG, INFO, WARNING, ERROR, CRITICAL. -/
theorem all_log_each_level :
    ∀ t : String,
      InputLogUi.all_log t
        = [⟨logging.DEBUG, t⟩, ⟨logging.INFO, t⟩, ⟨logging.WARNING, t⟩,
           ⟨logging.ERROR, t⟩, ⟨logging.CRITICAL, t⟩]
      ∧ (InputLogUi.all_log t).map LogCall.level = [10, 20, 30, 40, 50]
      ∧ List.Pairwise (fun a b => a < b)
          ((InputLogUi.all_log t).map LogCall.level) := by
  intro t
  refine ⟨rfl, rfl, ?_⟩
  have h : (InputLogUi.all_log t).map LogCall.level = [10, 20, 30, 40, 50] := rfl
  rw [h]
  decide
